import Mathlib

/-!
Verification of the django-nextjs-chatbot backend against its natural-language
specification.  Python `Decimal` arithmetic is embedded as exact rational
arithmetic (`ℚ`); Django model instances are embedded as explicit records or as
attribute maps where dynamic attribute lookup matters; database side effects are
embedded as explicit state passing.
-/

/-! ## Token cost calculation
Embeds `TokenUsageService.calculate_cost`
(apps/chatbot/services/token_usage_service.py) and
`TokenUsage.calculate_cost` (apps/chatbot/models/token_usage.py). -/

structure Costs where
  prompt_cost : ℚ
  completion_cost : ℚ
  total_cost : ℚ
deriving DecidableEq

namespace TokenUsageService

/-- Pricing table `TokenUsageService.MODEL_PRICING`: model name ↦ (prompt rate,
completion rate) in USD per 1M tokens. -/
def MODEL_PRICING : List (String × (ℚ × ℚ)) :=
  [("gpt-4o", (25/10, 10)),
   ("gpt-4o-mini", (15/100, 60/100)),
   ("gpt-3.5-turbo", (50/100, 150/100))]

/-- Embedding of `TokenUsageService.calculate_cost`: dictionary lookup with
the `gpt-4o` entry as default, then per-1M-token rates applied as
`(tokens / 1000000) * rate` in exact decimal arithmetic. -/
def calculate_cost (model_name : String) (prompt_tokens completion_tokens : ℤ) : Costs :=
  let pricing := (MODEL_PRICING.lookup model_name).getD (25/10, 10)
  let prompt_cost := ((prompt_tokens : ℚ) / 1000000) * pricing.1
  let completion_cost := ((completion_tokens : ℚ) / 1000000) * pricing.2
  { prompt_cost := prompt_cost
    completion_cost := completion_cost
    total_cost := prompt_cost + completion_cost }

end TokenUsageService

namespace TokenUsage

/-- Pricing table `PRICING` local to `TokenUsage.calculate_cost`. -/
def PRICING : List (String × (ℚ × ℚ)) :=
  [("gpt-4o", (25/10, 10)),
   ("gpt-4o-mini", (15/100, 60/100)),
   ("gpt-4-turbo", (10, 30)),
   ("gpt-3.5-turbo", (50/100, 150/100)),
   ("o1-preview", (15, 60)),
   ("o1-mini", (3, 12))]

/-- Embedding of the classmethod `TokenUsage.calculate_cost`: dictionary lookup
with the `gpt-4o-mini` entry as default, costs computed as
`(tokens * rate) / 1000000`, reasoning tokens billed at the completion rate. -/
def calculate_cost (model_name : String) (prompt_tokens completion_tokens : ℤ)
    (reasoning_tokens : ℤ := 0) : Costs :=
  let model_pricing := (PRICING.lookup model_name).getD (15/100, 60/100)
  let prompt_cost := ((prompt_tokens : ℚ) * model_pricing.1) / 1000000
  let completion_cost := ((completion_tokens : ℚ) * model_pricing.2) / 1000000
  let completion_cost :=
    if reasoning_tokens ≠ 0 then
      completion_cost + ((reasoning_tokens : ℚ) * model_pricing.2) / 1000000
    else completion_cost
  { prompt_cost := prompt_cost
    completion_cost := completion_cost
    total_cost := prompt_cost + completion_cost }

end TokenUsage

/-! ## Summarization service
Embeds `SummarizationService.manual_summarize`, `create_summary_message` and
`summarize_and_compress` (apps/chatbot/services/summarization_service.py).
The LLM call `model.invoke` is external; it is abstracted as a function
`llm : String → String` from the prompt to the summary text. -/

structure Message where
  type : String
  content : String
  additional_kwargs : List (String × Bool)
deriving DecidableEq

namespace SummarizationService

/-- Embedding of `manual_summarize` with the default prompt (`custom_prompt`
omitted): builds the conversation text and invokes the model on the prompt. -/
def manual_summarize (llm : String → String) (messages : List Message) : String :=
  let conversation_text :=
    String.intercalate "\n" (messages.map fun msg => msg.type ++ ": " ++ msg.content)
  let prompt :=
    "Concisely summarize the key points of this conversation. " ++
    "Focus on important information and context:\n\n" ++ conversation_text
  llm prompt

/-- Embedding of `create_summary_message`: a `SystemMessage` whose content is
prefixed and whose `additional_kwargs` carry the `is_summary` flag. -/
def create_summary_message (summary_text : String) : Message :=
  { type := "system"
    content := "Previous conversation summary: " ++ summary_text
    additional_kwargs := [("is_summary", true)] }

/-- Embedding of `summarize_and_compress`.  Python slicing semantics:
`messages[:-k]` and `messages[-k:]` for `k = 0` give `[]` and the whole list
respectively (since `-0 == 0`), and for `k ≥ 1` drop/keep the last `k`
elements. -/
def summarize_and_compress (llm : String → String) (messages : List Message)
    (keep_recent : ℕ := 10) : List Message :=
  if messages.length ≤ keep_recent then messages
  else
    let old_messages :=
      if keep_recent = 0 then [] else messages.take (messages.length - keep_recent)
    let recent_messages :=
      if keep_recent = 0 then messages else messages.drop (messages.length - keep_recent)
    let summary := manual_summarize llm old_messages
    let summary_msg := create_summary_message summary
    summary_msg :: recent_messages

end SummarizationService

/-! ## ChatSession instances as attribute maps
The `ChatSession` model (apps/chatbot/models/chat_session.py) declares the
fields listed in `chatSessionFields` (together with `created_at`/`updated_at`
from `TimestampedModel`).  The services below read and write numeric instance
attributes dynamically, so a session instance is embedded as an association
list from attribute names to rational values (only the numeric attributes the
services touch are tracked).  Reading an attribute that was never set raises
`AttributeError`; `Model.save(update_fields=...)` raises `ValueError` when a
listed name is not a model field. -/

inductive PyError where
  | attributeError
  | valueError
deriving DecidableEq

instance {ε α : Type} [DecidableEq ε] [DecidableEq α] : DecidableEq (Except ε α)
  | .error e, .error f =>
    if h : e = f then .isTrue (by rw [h]) else .isFalse (by simp [h])
  | .error _, .ok _ => .isFalse (by simp)
  | .ok _, .error _ => .isFalse (by simp)
  | .ok a, .ok b =>
    if h : a = b then .isTrue (by rw [h]) else .isFalse (by simp [h])

/-- Concrete field names declared on the `ChatSession` Django model
(including the `TimestampedModel` columns).  Note that `total_cost` is not
among them. -/
def chatSessionFields : List String :=
  ["created_at", "updated_at", "id", "user", "title", "description",
   "model_name", "temperature", "enable_summarization",
   "summarization_threshold", "is_active", "is_archived", "is_pinned",
   "tags", "metadata", "message_count", "total_tokens_used",
   "last_message_at"]

/-- Attribute store of a `ChatSession` instance (numeric attributes only). -/
abbrev SessionObj := List (String × ℚ)

def getattrQ (o : SessionObj) (name : String) : Except PyError ℚ :=
  match o.lookup name with
  | some v => .ok v
  | none => .error .attributeError

def setattrQ (o : SessionObj) (name : String) (v : ℚ) : SessionObj :=
  (name, v) :: o.filter (fun p => p.1 ≠ name)

/-- Numeric attributes of a freshly created `ChatSession` row, from the model
field defaults (`message_count = 0`, `total_tokens_used = 0`,
`temperature = 0.7`, `summarization_threshold = 384`).  There is no
`total_cost` attribute because the model declares no such field. -/
def newChatSession : SessionObj :=
  [("message_count", 0), ("total_tokens_used", 0),
   ("temperature", 7/10), ("summarization_threshold", 384)]

/-- Embedding of Django `save(update_fields=[...])`: every listed name must be
a concrete field of the model, otherwise `ValueError` is raised. -/
def djangoSaveChatSession (o : SessionObj) (update_fields : List String) :
    Except PyError SessionObj :=
  if update_fields.all (fun f => chatSessionFields.contains f) then .ok o
  else .error .valueError

/-- Python truthiness of an optional number (`if x:`): `None` and `0` are
falsy. -/
def truthyQ : Option ℚ → Bool
  | none => false
  | some v => v != 0

namespace ChatSessionService

/-- Embedding of `ChatSessionService.update_session_analytics` applied to the
session row with the given attribute store: each truthy argument increments the
corresponding instance attribute, then the row is saved with
`update_fields=["message_count", "total_tokens_used", "total_cost",
"updated_at"]`. -/
def update_session_analytics (session : SessionObj)
    (message_count tokens_used cost : Option ℚ) : Except PyError SessionObj := do
  let session ←
    if truthyQ message_count then do
      let v ← getattrQ session "message_count"
      pure (setattrQ session "message_count" (v + message_count.getD 0))
    else pure session
  let session ←
    if truthyQ tokens_used then do
      let v ← getattrQ session "total_tokens_used"
      pure (setattrQ session "total_tokens_used" (v + tokens_used.getD 0))
    else pure session
  let session ←
    if truthyQ cost then do
      let v ← getattrQ session "total_cost"
      pure (setattrQ session "total_cost" (v + cost.getD 0))
    else pure session
  djangoSaveChatSession session
    ["message_count", "total_tokens_used", "total_cost", "updated_at"]

end ChatSessionService

/-- Embedding of the session-analytics update performed at the end of
`TokenUsageService.track_usage`: after the `TokenUsage` row is created the
session instance attributes `total_tokens_used` and `total_cost` are
incremented and the row saved with
`update_fields=["total_tokens_used", "total_cost", "updated_at"]`. -/
def TokenUsageService.track_usage_session_update (session : SessionObj)
    (model_name : String) (prompt_tokens completion_tokens : ℤ) :
    Except PyError SessionObj := do
  let costs := TokenUsageService.calculate_cost model_name prompt_tokens completion_tokens
  let total_tokens : ℤ := prompt_tokens + completion_tokens
  let t ← getattrQ session "total_tokens_used"
  let session := setattrQ session "total_tokens_used" (t + (total_tokens : ℚ))
  let c ← getattrQ session "total_cost"
  let session := setattrQ session "total_cost" (c + costs.total_cost)
  djangoSaveChatSession session ["total_tokens_used", "total_cost", "updated_at"]

/-! ## User creation and role change signals
Embeds `create_user_profile` (post_save) and `handle_role_change` (pre_save)
from apps/accounts/signals/user_creation_signals.py.  Role profiles are
one-to-one rows, so the per-type profile population is tracked as a count;
`hasattr(user, <role>_profile)` corresponds to a nonzero count. -/

structure Profiles where
  developer : ℕ
  client : ℕ
  project_manager : ℕ
  account_manager : ℕ
deriving DecidableEq

structure UserState where
  role : String
  role_status : String
  profiles : Profiles
  contacts : ℕ
deriving DecidableEq

/-- Profile population the listed roles are supposed to end up with: exactly
one row of the matching type and none of any other type (`admin` and unknown
roles: none at all). -/
def profileFor (role : String) : Profiles :=
  if role = "developer" ∨ role = "senior_developer" then ⟨1, 0, 0, 0⟩
  else if role = "client" then ⟨0, 1, 0, 0⟩
  else if role = "project_manager" then ⟨0, 0, 1, 0⟩
  else if role = "account_manager" then ⟨0, 0, 0, 1⟩
  else ⟨0, 0, 0, 0⟩

/-- Embedding of the `post_save` receiver `create_user_profile`: on creation a
`UserContact` row is created (skipped when one already exists), then the branch
for the user role creates the matching profile row unless present and updates
`role_status` to `approved`; `admin` only gets the status update; other roles
fall through every branch. -/
def create_user_profile (created : Bool) (u : UserState) : UserState :=
  if created then
    let u := if u.contacts = 0 then { u with contacts := 1 } else u
    if u.role = "developer" ∨ u.role = "senior_developer" then
      let u :=
        if u.profiles.developer = 0 then
          { u with profiles := { u.profiles with developer := 1 } }
        else u
      { u with role_status := "approved" }
    else if u.role = "client" then
      let u :=
        if u.profiles.client = 0 then
          { u with profiles := { u.profiles with client := 1 } }
        else u
      { u with role_status := "approved" }
    else if u.role = "project_manager" then
      let u :=
        if u.profiles.project_manager = 0 then
          { u with profiles := { u.profiles with project_manager := 1 } }
        else u
      { u with role_status := "approved" }
    else if u.role = "account_manager" then
      let u :=
        if u.profiles.account_manager = 0 then
          { u with profiles := { u.profiles with account_manager := 1 } }
        else u
      { u with role_status := "approved" }
    else if u.role = "admin" then
      { u with role_status := "approved" }
    else u
  else u

/-- Cleanup step of `handle_role_change`: each `hasattr`-guarded
`profile.delete()` call, one per profile type. -/
def delete_existing_profiles (u : UserState) : UserState :=
  let u := if u.profiles.developer ≠ 0 then
    { u with profiles := { u.profiles with developer := 0 } } else u
  let u := if u.profiles.client ≠ 0 then
    { u with profiles := { u.profiles with client := 0 } } else u
  let u := if u.profiles.project_manager ≠ 0 then
    { u with profiles := { u.profiles with project_manager := 0 } } else u
  if u.profiles.account_manager ≠ 0 then
    { u with profiles := { u.profiles with account_manager := 0 } } else u

/-- Embedding of the `pre_save` receiver `handle_role_change` for an existing
user: when the role stored in the database differs from the instance role,
every existing profile row (all four types) is deleted, the role is persisted,
and one new profile matching the new role is created (`none` for `admin`),
setting `role_status` to `approved`.  `db_role` is the role currently stored in
the database; `u.role` carries the new role being saved. -/
def handle_role_change (db_role : String) (u : UserState) : UserState :=
  if db_role = u.role then u
  else
    let new_role := u.role
    let u := delete_existing_profiles u
    let u := { u with role := new_role }
    if new_role = "developer" ∨ new_role = "senior_developer" then
      { u with profiles := { u.profiles with developer := 1 },
               role_status := "approved" }
    else if new_role = "client" then
      { u with profiles := { u.profiles with client := 1 },
               role_status := "approved" }
    else if new_role = "project_manager" then
      { u with profiles := { u.profiles with project_manager := 1 },
               role_status := "approved" }
    else if new_role = "account_manager" then
      { u with profiles := { u.profiles with account_manager := 1 },
               role_status := "approved" }
    else if new_role = "admin" then
      { u with role_status := "approved" }
    else u

/-! ## Registration serializer
Embeds `RegisterSerializer.validate`
(apps/accounts/api/serializers/auth_serializers.py).  A validation error is the
key of the raised `serializers.ValidationError` dictionary; the database is
embedded as the list of registered email addresses plus the list of existing
organization ids. -/

structure RegPayload where
  email : String
  password1 : String
  password2 : String
  role : String
  organization_id : Option ℤ
  experience_level : Option String
  client_type : Option String
deriving DecidableEq

def valid_roles : List String :=
  ["developer", "senior_developer", "project_manager", "client",
   "account_manager", "admin"]

/-- Python truthiness of an optional integer (`if organization_id:`). -/
def truthyZ : Option ℤ → Bool
  | none => false
  | some v => v != 0

namespace RegisterSerializer

/-- Embedding of `RegisterSerializer.validate`.  On failure it returns the key
of the raised validation error; on success the payload is accepted.  The checks
run in source order: password match, duplicate email, organization existence,
role validity, then per-role option validity. -/
def validate (db_emails : List String) (db_orgs : List ℤ) (attrs : RegPayload) :
    Except String RegPayload :=
  if attrs.password1 ≠ attrs.password2 then .error "password2"
  else if attrs.email ∈ db_emails then .error "email"
  else if truthyZ attrs.organization_id ∧
      (attrs.organization_id.getD 0) ∉ db_orgs then .error "organization_id"
  else if attrs.role ∉ valid_roles then .error "role"
  else if (attrs.role = "developer" ∨ attrs.role = "senior_developer") ∧
      attrs.experience_level.isSome ∧
      (attrs.experience_level.getD "") ∉
        ["junior", "mid", "senior", "lead", "architect"] then
    .error "experience_level"
  else if attrs.role = "client" ∧ attrs.client_type.isSome ∧
      (attrs.client_type.getD "") ∉
        ["individual", "small_business", "mid_market", "enterprise",
         "public_sector", "non_profit", "educational", "healthcare"] then
    .error "client_type"
  else if attrs.role = "project_manager" ∧ attrs.experience_level.isSome ∧
      (attrs.experience_level.getD "") ∉
        ["entry", "intermediate", "senior", "lead", "director"] then
    .error "experience_level"
  else if attrs.role = "account_manager" ∧ attrs.experience_level.isSome ∧
      (attrs.experience_level.getD "") ∉
        ["junior", "mid", "senior", "lead", "director"] then
    .error "experience_level"
  else .ok attrs

/-- Registration pipeline at the serializer level: `create` only runs on
payloads that passed `validate`, so a validation error leaves the set of
registered emails unchanged. -/
def register (db_emails : List String) (db_orgs : List ℤ) (attrs : RegPayload) :
    Except String RegPayload × List String :=
  match validate db_emails db_orgs attrs with
  | .error k => (.error k, db_emails)
  | .ok a => (.ok a, a.email :: db_emails)

end RegisterSerializer

/-! ## Subscription tier updates
Embeds `CustomUser.update_subscription`, `_update_developer_permissions`,
`_update_client_permissions` and `_update_project_manager_permissions`
(apps/accounts/models/custom_user.py).  The JSON dictionaries
`resource_allocation`, `access_levels` and `project_quotas` are embedded as
records of the keys the updaters write; `timezone.now().isoformat()` is passed
in as the abstract timestamp `now`. -/

def SUBSCRIPTION_TIERS : List String :=
  ["standard", "professional", "business", "enterprise"]

structure DevAllocation where
  monthly_limit : Option (Option ℕ)
  advanced_tools_access : Option Bool
  last_updated : Option String
deriving DecidableEq

structure ClientFeatures where
  project_reports_access : Bool
  api_tokens : Option ℕ
  custom_integrations : Bool
  support_level : String
deriving DecidableEq

structure ClientAccess where
  subscription_features : Option ClientFeatures
  last_tier_update : Option String
deriving DecidableEq

structure PMLimits where
  max_projects : Option ℕ
  team_members : Option ℕ
  analytics_level : String
deriving DecidableEq

structure PMQuotas where
  limits : Option PMLimits
  reset_date : Option String
deriving DecidableEq

structure SubUser where
  role : String
  subscription_tier : String
  developer_profile : Option DevAllocation
  client_profile : Option ClientAccess
  project_manager_profile : Option PMQuotas
deriving DecidableEq

/-- Row of the `tier_limits` table in `_update_developer_permissions`:
`resource_limit` (inner `none` = unlimited) and `advanced_tools_access`. -/
def devTierLimits (tier : String) : Option ℕ × Bool :=
  if tier = "standard" then (some 50, false)
  else if tier = "professional" then (some 200, true)
  else if tier = "business" then (some 500, true)
  else (none, true)

/-- Row of the `tier_access` table in `_update_client_permissions`. -/
def clientTierAccess (tier : String) : ClientFeatures :=
  if tier = "standard" then ⟨false, some 3, false, "basic"⟩
  else if tier = "professional" then ⟨true, some 10, false, "standard"⟩
  else if tier = "business" then ⟨true, some 25, true, "priority"⟩
  else ⟨true, none, true, "dedicated"⟩

/-- Row of the `tier_quotas` table in `_update_project_manager_permissions`
(defined only for professional, business and enterprise). -/
def pmTierQuotas (tier : String) : Option PMLimits :=
  if tier = "professional" then some ⟨some 5, some 10, "basic"⟩
  else if tier = "business" then some ⟨some 15, some 25, "advanced"⟩
  else if tier = "enterprise" then some ⟨none, none, "premium"⟩
  else none

namespace CustomUser

/-- Embedding of `_update_developer_permissions`: the developer profile
`resource_allocation` dictionary is updated with `monthly_limit`,
`advanced_tools_access` and `last_updated`. -/
def update_developer_permissions (now : String) (u : SubUser) (new_tier : String) :
    SubUser :=
  match u.developer_profile with
  | none => u
  | some _ =>
    let limits := devTierLimits new_tier
    let alloc : DevAllocation :=
      { monthly_limit := some limits.1
        advanced_tools_access := some limits.2
        last_updated := some now }
    { u with developer_profile := some alloc }

/-- Embedding of `_update_client_permissions`: the client profile
`access_levels` dictionary is updated with `subscription_features` and
`last_tier_update`. -/
def update_client_permissions (now : String) (u : SubUser) (new_tier : String) :
    SubUser :=
  match u.client_profile with
  | none => u
  | some _ =>
    let access : ClientAccess :=
      { subscription_features := some (clientTierAccess new_tier)
        last_tier_update := some now }
    { u with client_profile := some access }

/-- Embedding of `_update_project_manager_permissions`: the project manager
profile `project_quotas` dictionary is updated only when the new tier appears
in the `tier_quotas` table. -/
def update_project_manager_permissions (now : String) (u : SubUser)
    (new_tier : String) : SubUser :=
  match u.project_manager_profile with
  | none => u
  | some _ =>
    match pmTierQuotas new_tier with
    | none => u
    | some limits =>
      let quotas : PMQuotas :=
        { limits := some limits
          reset_date := some now }
      { u with project_manager_profile := some quotas }

/-- Embedding of `CustomUser.update_subscription`: an invalid tier raises
`ValueError` before any mutation; a valid tier is stored and the cascade runs
only for role `developer`, `client` or `project_manager` when the matching
profile exists.  The result pairs the user state after the call with the raised
error, if any. -/
def update_subscription (now : String) (u : SubUser) (new_tier : String) :
    SubUser × Option PyError :=
  if new_tier ∉ SUBSCRIPTION_TIERS then (u, some .valueError)
  else
    let u := { u with subscription_tier := new_tier }
    let u :=
      if u.role = "developer" ∧ u.developer_profile.isSome then
        update_developer_permissions now u new_tier
      else if u.role = "client" ∧ u.client_profile.isSome then
        update_client_permissions now u new_tier
      else if u.role = "project_manager" ∧ u.project_manager_profile.isSome then
        update_project_manager_permissions now u new_tier
      else u
    (u, none)

end CustomUser

/-! ## Logout view
Embeds `LogoutView.post` and `LogoutView._create_logout_response`
(apps/accounts/api/views/auth_views.py).  External effects (token parsing,
blacklisting, database writes) are abstracted into the `TokenOutcome`
parameter; `unexpected` covers the outermost `except Exception` branch. -/

structure HttpResponse where
  http_status : ℕ
  code : String
  deleted_cookies : List String
deriving DecidableEq

structure LogoutRequest where
  has_auth : Bool
  has_user_obj : Bool
  user_authenticated : Bool
  user_id : ℤ
  refresh_token : Option String
  all_devices : Bool
deriving DecidableEq

/-- Outcome of `RefreshToken(refresh_token)` followed by `token.blacklist()`:
either construction raises, or it yields a payload user id and the blacklist
call may itself raise. -/
inductive TokenOutcome where
  | parseError
  | parsed (payload_user_id : Option ℤ) (blacklist_raises : Bool)
deriving DecidableEq

namespace LogoutView

/-- Embedding of `_create_logout_response`: HTTP 200 with the four
authentication cookies deleted. -/
def create_logout_response (code : String) : HttpResponse :=
  { http_status := 200
    code := code
    deleted_cookies := ["auth_state", "access_token", "refresh_token", "csrftoken"] }

/-- Embedding of `LogoutView.post`, branch by branch: expired token
(`request.auth` and `request.user` both absent), missing refresh token,
token-user mismatch, blacklist success, inner token exception, and the
outermost unexpected exception. -/
def post (req : LogoutRequest) (tok : TokenOutcome) (unexpected : Bool) :
    HttpResponse :=
  if unexpected then create_logout_response "error_but_logged_out"
  else if !req.has_auth ∧ !req.has_user_obj then
    create_logout_response "logout_expired_token"
  else
    match req.refresh_token with
    | none => create_logout_response "logout_without_token"
    | some _ =>
      match tok with
      | .parseError => create_logout_response "invalid_token"
      | .parsed payload_user_id blacklist_raises =>
        if req.user_authenticated ∧ payload_user_id ≠ some req.user_id then
          create_logout_response "token_mismatch"
        else if blacklist_raises then create_logout_response "invalid_token"
        else create_logout_response "logout_success"

end LogoutView

/-! ## Login (token obtain) view
Embeds the pre-validation and error mapping of
`CustomTokenObtainPairView.post` (apps/accounts/api/views/auth_views.py).
The database is a list of users looked up by email; the serializer stage
(simplejwt credential check) fails with `invalid_credentials` when no active
account matches the given credentials.  An empty string models a missing or
empty request field. -/

structure LoginUser where
  email : String
  password : String
  is_active : Bool
  role_status : String
deriving DecidableEq

structure LoginResponse where
  http_status : ℕ
  message : String
  code : String
deriving DecidableEq

def findUser (db : List LoginUser) (email : String) : Option LoginUser :=
  db.find? (fun u => u.email = email)

namespace CustomTokenObtainPairView

/-- The `status_messages` dictionary for restricted role statuses, with the
`.get` default. -/
def status_message (role_status : String) : String :=
  if role_status = "suspended" then "Account is suspended. Please contact support."
  else if role_status = "inactive" then "Account is inactive. Please contact support."
  else if role_status = "blocked" then "Account is blocked. Please contact support."
  else "Account access is restricted. Please contact support."

/-- The serializer / simplejwt credential stage: authentication succeeds only
for an active user whose password matches; any failure surfaces as HTTP 401
`invalid_credentials`. -/
def credential_stage (db : List LoginUser) (email password : String) :
    LoginResponse :=
  match findUser db email with
  | none => ⟨401, "Invalid email or password.", "invalid_credentials"⟩
  | some u =>
    if u.password = password ∧ u.is_active then ⟨200, "Login successful", "success"⟩
    else ⟨401, "Invalid email or password.", "invalid_credentials"⟩

/-- Embedding of `CustomTokenObtainPairView.post`: missing fields are rejected
first, then the pre-validation lookup checks `is_active` and `role_status`
before the serializer runs; an unknown email falls through to the credential
stage. -/
def post (db : List LoginUser) (email password : String) : LoginResponse :=
  if email = "" ∨ password = "" then
    ⟨400, "Email and password are required.", "required_fields_missing"⟩
  else
    match findUser db email with
    | some u =>
      if !u.is_active then
        ⟨403, "Account is inactive. Please contact support.", "account_inactive"⟩
      else if u.role_status ∈ ["suspended", "inactive", "blocked"] then
        ⟨403, status_message u.role_status, "account_" ++ u.role_status⟩
      else credential_stage db email password
    | none => credential_stage db email password

end CustomTokenObtainPairView

/-! ## Claim theorems -/

/-- C8: `TokenUsageService.calculate_cost` is a pure deterministic function of
(model_name, prompt_tokens, completion_tokens): it returns exactly
`prompt_cost = prompt_tokens/1000000 *` prompt rate and
`completion_cost = completion_tokens/1000000 *` completion rate in exact
decimal arithmetic, with `total_cost = prompt_cost + completion_cost`, using
the gpt-4o rates whenever the model name is not in the pricing table. -/
theorem calculate_cost_exact (m : String) (p c : ℤ) :
    (TokenUsageService.calculate_cost m p c).prompt_cost =
      (p : ℚ) / 1000000 *
        ((TokenUsageService.MODEL_PRICING.lookup m).getD (25/10, 10)).1 ∧
    (TokenUsageService.calculate_cost m p c).completion_cost =
      (c : ℚ) / 1000000 *
        ((TokenUsageService.MODEL_PRICING.lookup m).getD (25/10, 10)).2 ∧
    (TokenUsageService.calculate_cost m p c).total_cost =
      (TokenUsageService.calculate_cost m p c).prompt_cost +
        (TokenUsageService.calculate_cost m p c).completion_cost ∧
    (TokenUsageService.MODEL_PRICING.lookup m = none →
      TokenUsageService.calculate_cost m p c =
        TokenUsageService.calculate_cost "gpt-4o" p c) := by
  refine ⟨rfl, rfl, rfl, ?_⟩
  intro h
  simp only [TokenUsageService.calculate_cost, h, Option.getD]
  simp +decide [TokenUsageService.MODEL_PRICING, List.lookup]

/-- Witness for `calculate_cost_exact` at a model name outside the pricing
table. -/
theorem calculate_cost_exact_witness :
    TokenUsageService.MODEL_PRICING.lookup "claude-3" = none ∧
    TokenUsageService.calculate_cost "claude-3" 150 75 =
      TokenUsageService.calculate_cost "gpt-4o" 150 75 :=
  ⟨rfl, (calculate_cost_exact "claude-3" 150 75).2.2.2 rfl⟩

/-- C9 counterexample: the two token-cost calculators disagree at
`gpt-4-turbo` (listed only in the model-level table; the service falls back to
the gpt-4o rates), so they are not equal for every model name. -/
theorem calculate_cost_disagree :
    TokenUsageService.calculate_cost "gpt-4-turbo" 1000000 0 ≠
      TokenUsage.calculate_cost "gpt-4-turbo" 1000000 0 0 := by
  intro h
  have hs : List.lookup "gpt-4-turbo" TokenUsageService.MODEL_PRICING = none := rfl
  have hm : List.lookup "gpt-4-turbo" TokenUsage.PRICING = some (10, 30) := rfl
  have h2 := congrArg Costs.prompt_cost h
  rw [TokenUsageService.calculate_cost, TokenUsage.calculate_cost] at h2
  simp only [hs, hm, Option.getD] at h2
  norm_num at h2

/-- Helper for C9: the two calculators agree whenever both pricing tables
list the model with the same rates. -/
theorem calculate_cost_agree_of_lookup (m : String) (r : ℚ × ℚ) (p c : ℤ)
    (h1 : TokenUsageService.MODEL_PRICING.lookup m = some r)
    (h2 : TokenUsage.PRICING.lookup m = some r) :
    TokenUsageService.calculate_cost m p c = TokenUsage.calculate_cost m p c 0 := by
  simp only [TokenUsageService.calculate_cost, TokenUsage.calculate_cost, h1, h2,
    Option.getD, ne_eq, not_true_eq_false, if_neg, if_false]
  simp only [Costs.mk.injEq]
  refine ⟨by ring, by ring, by ring⟩

/-- C9, corrected: the two token-cost calculators agree exactly on the model
names both pricing tables share (gpt-4o, gpt-4o-mini, gpt-3.5-turbo) with
`reasoning_tokens = 0`; they differ on every other model name because the
service table lacks gpt-4-turbo/o1-preview/o1-mini and the two fallbacks are
gpt-4o versus gpt-4o-mini. -/
theorem calculate_cost_agree_on_shared (m : String)
    (hm : m ∈ ["gpt-4o", "gpt-4o-mini", "gpt-3.5-turbo"]) (p c : ℤ) :
    TokenUsageService.calculate_cost m p c = TokenUsage.calculate_cost m p c 0 := by
  simp only [List.mem_cons, List.mem_singleton, List.not_mem_nil, or_false] at hm
  rcases hm with rfl | rfl | rfl
  · exact calculate_cost_agree_of_lookup _ (25/10, 10) p c rfl rfl
  · exact calculate_cost_agree_of_lookup _ (15/100, 60/100) p c rfl rfl
  · exact calculate_cost_agree_of_lookup _ (50/100, 150/100) p c rfl rfl

/-- Witness for `calculate_cost_agree_on_shared` at gpt-4o-mini. -/
theorem calculate_cost_agree_on_shared_witness :
    TokenUsageService.calculate_cost "gpt-4o-mini" 150 75 =
      TokenUsage.calculate_cost "gpt-4o-mini" 150 75 0 :=
  calculate_cost_agree_on_shared "gpt-4o-mini" (by simp) 150 75

/-- C10 counterexample: with `keep_recent = 0` a nonempty message list is
strictly longer than `keep_recent`, yet `summarize_and_compress` returns the
summary message followed by ALL input messages (Python `messages[-0:]` is the
whole list), so the output length is 2, not `keep_recent + 1 = 1`. -/
theorem summarize_and_compress_keep_zero :
    (SummarizationService.summarize_and_compress (fun _ => "S")
      [⟨"human", "hi", []⟩] 0).length ≠ 0 + 1 := by
  decide

/-- C10, corrected: for every `keep_recent ≥ 1`, `summarize_and_compress`
leaves a list of length at most `keep_recent` unchanged, and for every longer
list returns `keep_recent + 1` messages: a system summary message (flagged
`is_summary`) followed by the last `keep_recent` input messages in order. -/
theorem summarize_and_compress_spec (llm : String → String)
    (messages : List Message) (k : ℕ) (hk : 1 ≤ k) :
    (messages.length ≤ k →
      SummarizationService.summarize_and_compress llm messages k = messages) ∧
    (k < messages.length →
      ∃ s, SummarizationService.summarize_and_compress llm messages k =
          SummarizationService.create_summary_message s ::
            messages.drop (messages.length - k) ∧
        (SummarizationService.summarize_and_compress llm messages k).length =
          k + 1 ∧
        (SummarizationService.create_summary_message s).type = "system" ∧
        (SummarizationService.create_summary_message s).additional_kwargs.lookup
          "is_summary" = some true) := by
  constructor
  · intro h
    simp [SummarizationService.summarize_and_compress, h]
  · intro h
    have hn : ¬ messages.length ≤ k := not_le.mpr h
    have hk0 : k ≠ 0 := by omega
    refine ⟨SummarizationService.manual_summarize llm
      (messages.take (messages.length - k)), ?_, ?_, rfl, rfl⟩
    · simp [SummarizationService.summarize_and_compress, hn, hk0]
    · simp only [SummarizationService.summarize_and_compress, hn, if_false,
        hk0, if_neg, List.length_cons, List.length_drop]
      omega

/-- Witness for `summarize_and_compress_spec` with three messages and
`keep_recent = 2`. -/
theorem summarize_and_compress_spec_witness :
    SummarizationService.summarize_and_compress (fun _ => "S")
        [⟨"human", "a", []⟩] 2 = [⟨"human", "a", []⟩] ∧
    (SummarizationService.summarize_and_compress (fun _ => "S")
        [⟨"human", "a", []⟩, ⟨"ai", "b", []⟩, ⟨"human", "c", []⟩] 2).length =
      2 + 1 :=
  ⟨(summarize_and_compress_spec (fun _ => "S") [⟨"human", "a", []⟩] 2
      (by decide)).1 (by decide),
   by
    obtain ⟨s, _, hlen, _, _⟩ :=
      (summarize_and_compress_spec (fun _ => "S")
        [⟨"human", "a", []⟩, ⟨"ai", "b", []⟩, ⟨"human", "c", []⟩] 2
        (by decide)).2 (by decide)
    exact hlen⟩

/-- C1: the claim describes a `total_cost` analytics counter on the session
row, but the `ChatSession` model declares no `total_cost` field.  Consequently
`ChatSessionService.update_session_analytics` with a truthy cost raises
`AttributeError` at `session.total_cost += cost` (and even with `cost=None` the
save raises `ValueError` because `update_fields` names the nonexistent
`total_cost` column), and `TokenUsageService.track_usage` raises
`AttributeError` at `session.total_cost += usage.total_cost`.  Nothing is ever
persisted. -/
theorem session_total_cost_never_updated :
    ("total_cost" ∉ chatSessionFields) ∧
    ChatSessionService.update_session_analytics newChatSession none none
      (some (2/1000)) = .error .attributeError ∧
    ChatSessionService.update_session_analytics newChatSession (some 1)
      (some 150) none = .error .valueError ∧
    TokenUsageService.track_usage_session_update newChatSession "gpt-4o" 150 75 =
      .error .attributeError := by
  refine ⟨by simp [chatSessionFields], ?_, ?_, ?_⟩
  · simp +decide [ChatSessionService.update_session_analytics, truthyQ, getattrQ,
      setattrQ, newChatSession, djangoSaveChatSession, chatSessionFields,
      List.lookup, Bind.bind, Except.bind, Pure.pure, Except.pure]
  · simp +decide [ChatSessionService.update_session_analytics, truthyQ, getattrQ,
      setattrQ, newChatSession, djangoSaveChatSession, chatSessionFields,
      List.lookup, Bind.bind, Except.bind, Pure.pure, Except.pure]
  · simp +decide [TokenUsageService.track_usage_session_update, getattrQ,
      setattrQ, newChatSession, djangoSaveChatSession, chatSessionFields,
      TokenUsageService.calculate_cost, TokenUsageService.MODEL_PRICING,
      List.lookup, Bind.bind, Except.bind, Pure.pure, Except.pure]

/-- Helper: the cleanup step of `handle_role_change` removes every profile row
and touches nothing else. -/
theorem delete_existing_profiles_spec (u : UserState) :
    (delete_existing_profiles u).profiles = ⟨0, 0, 0, 0⟩ ∧
    (delete_existing_profiles u).role = u.role ∧
    (delete_existing_profiles u).role_status = u.role_status ∧
    (delete_existing_profiles u).contacts = u.contacts := by
  obtain ⟨role, status, ⟨d, cl, pm, am⟩, contacts⟩ := u
  simp only [delete_existing_profiles]
  split_ifs <;> simp_all

/-- C2: for every newly created user whose role is developer, senior_developer,
client, project_manager or account_manager, the `post_save` signal leaves
exactly one role-profile record of the matching type (and none of any other
type) and sets `role_status` to `approved`; for role `admin` no role profile
is created but `role_status` is still set to `approved`. -/
theorem create_user_profile_spec (role status0 : String)
    (h : role ∈ ["developer", "senior_developer", "client", "project_manager",
      "account_manager"]) :
    (create_user_profile true ⟨role, status0, ⟨0, 0, 0, 0⟩, 0⟩).profiles =
      profileFor role ∧
    (create_user_profile true ⟨role, status0, ⟨0, 0, 0, 0⟩, 0⟩).role_status =
      "approved" ∧
    (create_user_profile true ⟨"admin", status0, ⟨0, 0, 0, 0⟩, 0⟩).profiles =
      ⟨0, 0, 0, 0⟩ ∧
    (create_user_profile true ⟨"admin", status0, ⟨0, 0, 0, 0⟩, 0⟩).role_status =
      "approved" := by
  simp only [List.mem_cons, List.not_mem_nil, or_false] at h
  rcases h with rfl | rfl | rfl | rfl | rfl <;>
    simp +decide [create_user_profile, profileFor]

/-- Witness for `create_user_profile_spec` at role `client`. -/
theorem create_user_profile_spec_witness :
    (create_user_profile true ⟨"client", "pending", ⟨0, 0, 0, 0⟩, 0⟩).profiles =
      profileFor "client" ∧
    (create_user_profile true ⟨"client", "pending", ⟨0, 0, 0, 0⟩, 0⟩).role_status =
      "approved" :=
  ⟨(create_user_profile_spec "client" "pending" (by simp)).1,
   (create_user_profile_spec "client" "pending" (by simp)).2.1⟩

/-- C3: for every existing user saved with a role different from the role in
the database, the `pre_save` signal deletes every existing role profile, then
creates exactly one profile matching the new role (none for `admin`), and the
user role after the operation equals the new role (the six valid roles all set
`role_status` to `approved`). -/
theorem handle_role_change_spec (db_role new_role status0 : String)
    (profs : Profiles) (contacts : ℕ) (hchange : db_role ≠ new_role)
    (hrole : new_role ∈ ["developer", "senior_developer", "client",
      "project_manager", "account_manager", "admin"]) :
    (handle_role_change db_role ⟨new_role, status0, profs, contacts⟩).profiles =
      profileFor new_role ∧
    (handle_role_change db_role ⟨new_role, status0, profs, contacts⟩).role =
      new_role ∧
    (handle_role_change db_role ⟨new_role, status0, profs, contacts⟩).role_status =
      "approved" := by
  have hd := delete_existing_profiles_spec ⟨new_role, status0, profs, contacts⟩
  obtain ⟨hp, hr, hs, hc⟩ := hd
  simp only [List.mem_cons, List.not_mem_nil, or_false] at hrole
  rcases hrole with rfl | rfl | rfl | rfl | rfl | rfl <;>
    simp +decide [handle_role_change, if_neg hchange, hp, profileFor]

/-- Witness for `handle_role_change_spec`: a client with an existing client
profile becomes a developer. -/
theorem handle_role_change_spec_witness :
    (handle_role_change "client"
      ⟨"developer", "approved", ⟨0, 1, 0, 0⟩, 1⟩).profiles =
      profileFor "developer" ∧
    (handle_role_change "client"
      ⟨"developer", "approved", ⟨0, 1, 0, 0⟩, 1⟩).role = "developer" :=
  ⟨(handle_role_change_spec "client" "developer" "approved" ⟨0, 1, 0, 0⟩ 1
      (by decide) (by simp)).1,
   (handle_role_change_spec "client" "developer" "approved" ⟨0, 1, 0, 0⟩ 1
      (by decide) (by simp)).2.1⟩

/-- C4 counterexample: a registration payload whose email is already
registered but whose two passwords differ is rejected with the error keyed on
`password2`, not on `email`, because the password check runs first. -/
theorem register_duplicate_email_password_key :
    RegisterSerializer.validate ["a@x.com"] []
      ⟨"a@x.com", "p1", "p2", "client", none, none, none⟩ = .error "password2" ∧
    "password2" ≠ "email" := by decide

/-- C4, corrected: a registration payload whose email is already registered is
always rejected with no new user record created, and the validation error is
keyed on `email` whenever the two password fields match. -/
theorem register_duplicate_email_rejected (db_emails : List String)
    (db_orgs : List ℤ) (attrs : RegPayload)
    (hemail : attrs.email ∈ db_emails)
    (hpw : attrs.password1 = attrs.password2) :
    RegisterSerializer.validate db_emails db_orgs attrs = .error "email" ∧
    (RegisterSerializer.register db_emails db_orgs attrs).2 = db_emails := by
  have h1 : ¬ attrs.password1 ≠ attrs.password2 := by simpa using hpw
  have hv : RegisterSerializer.validate db_emails db_orgs attrs = .error "email" := by
    simp only [RegisterSerializer.validate, if_neg h1, if_pos hemail]
  exact ⟨hv, by simp only [RegisterSerializer.register, hv]⟩

/-- Witness for `register_duplicate_email_rejected`. -/
theorem register_duplicate_email_rejected_witness :
    RegisterSerializer.validate ["a@x.com"] []
      ⟨"a@x.com", "pw", "pw", "client", none, none, none⟩ = .error "email" ∧
    (RegisterSerializer.register ["a@x.com"] []
      ⟨"a@x.com", "pw", "pw", "client", none, none, none⟩).2 = ["a@x.com"] :=
  register_duplicate_email_rejected ["a@x.com"] []
    ⟨"a@x.com", "pw", "pw", "client", none, none, none⟩ (by simp) rfl

/-- C5 counterexample: a `senior_developer` holding a developer profile gets
the new tier stored, but the cascade is skipped (the code only cascades for
`role == "developer"`), so the profile keeps its old permission fields instead
of the table row (monthly_limit 200, advanced_tools_access true). -/
theorem update_subscription_senior_dev_no_cascade :
    (CustomUser.update_subscription "T"
      ⟨"senior_developer", "standard", some ⟨none, none, none⟩, none, none⟩
      "professional").1.subscription_tier = "professional" ∧
    (CustomUser.update_subscription "T"
      ⟨"senior_developer", "standard", some ⟨none, none, none⟩, none, none⟩
      "professional").1.developer_profile = some ⟨none, none, none⟩ ∧
    devTierLimits "professional" = (some 200, true) := by decide

/-- Helper: the developer cascade preserves `subscription_tier`. -/
theorem upd_dev_tier (now : String) (u : SubUser) (t : String) :
    (CustomUser.update_developer_permissions now u t).subscription_tier =
      u.subscription_tier := by
  cases h : u.developer_profile <;>
    simp [CustomUser.update_developer_permissions, h]

/-- Helper: the client cascade preserves `subscription_tier`. -/
theorem upd_client_tier (now : String) (u : SubUser) (t : String) :
    (CustomUser.update_client_permissions now u t).subscription_tier =
      u.subscription_tier := by
  cases h : u.client_profile <;>
    simp [CustomUser.update_client_permissions, h]

/-- Helper: the project-manager cascade preserves `subscription_tier`. -/
theorem upd_pm_tier (now : String) (u : SubUser) (t : String) :
    (CustomUser.update_project_manager_permissions now u t).subscription_tier =
      u.subscription_tier := by
  cases h : u.project_manager_profile <;>
    cases hq : pmTierQuotas t <;>
    simp [CustomUser.update_project_manager_permissions, h, hq]

/-- C5, corrected: `update_subscription` with an invalid tier raises
`ValueError` and changes nothing; with a valid tier it stores the tier and
cascades the per-tier table onto the profile, but only for the exact roles
`developer`, `client` and `project_manager` — a `senior_developer` keeps an
untouched developer profile.  The developer row is
(monthly_limit, advanced_tools_access) = `devTierLimits`, i.e.
50/200/500/unlimited with advanced access false only for standard. -/
theorem update_subscription_spec (now : String) (u : SubUser) (t : String) :
    (t ∉ SUBSCRIPTION_TIERS →
      CustomUser.update_subscription now u t = (u, some .valueError)) ∧
    (t ∈ SUBSCRIPTION_TIERS →
      (CustomUser.update_subscription now u t).2 = none ∧
      (CustomUser.update_subscription now u t).1.subscription_tier = t ∧
      (∀ a, u.role = "developer" → u.developer_profile = some a →
        (CustomUser.update_subscription now u t).1.developer_profile =
          some ⟨some (devTierLimits t).1, some (devTierLimits t).2, some now⟩) ∧
      (∀ a, u.role = "client" → u.client_profile = some a →
        (CustomUser.update_subscription now u t).1.client_profile =
          some ⟨some (clientTierAccess t), some now⟩) ∧
      (∀ a l, u.role = "project_manager" → u.project_manager_profile = some a →
        pmTierQuotas t = some l →
        (CustomUser.update_subscription now u t).1.project_manager_profile =
          some ⟨some l, some now⟩) ∧
      (u.role = "senior_developer" →
        (CustomUser.update_subscription now u t).1.developer_profile =
          u.developer_profile)) := by
  constructor
  · intro h
    simp only [CustomUser.update_subscription, if_pos h]
  · intro ht
    have hv : ¬ t ∉ SUBSCRIPTION_TIERS := by simpa using ht
    refine ⟨?_, ?_, ?_, ?_, ?_, ?_⟩
    · simp only [CustomUser.update_subscription, if_neg hv]
    · simp only [CustomUser.update_subscription, if_neg hv]
      split_ifs <;> simp [upd_dev_tier, upd_client_tier, upd_pm_tier]
    · intro a hrole hprof
      simp only [CustomUser.update_subscription, if_neg hv]
      simp +decide [hrole, hprof, CustomUser.update_developer_permissions]
    · intro a hrole hprof
      simp only [CustomUser.update_subscription, if_neg hv]
      simp +decide [hrole, hprof, CustomUser.update_client_permissions]
    · intro a l hrole hprof hq
      simp only [CustomUser.update_subscription, if_neg hv]
      simp +decide [hrole, hprof, hq, CustomUser.update_project_manager_permissions]
    · intro hrole
      simp only [CustomUser.update_subscription, if_neg hv]
      simp +decide [hrole]

/-- Witness for `update_subscription_spec`: a developer on standard moving to
professional, plus the invalid-tier branch at tier `gold`. -/
theorem update_subscription_spec_witness :
    CustomUser.update_subscription "T"
      ⟨"developer", "standard", some ⟨none, none, none⟩, none, none⟩ "gold" =
      (⟨"developer", "standard", some ⟨none, none, none⟩, none, none⟩,
        some .valueError) ∧
    (CustomUser.update_subscription "T"
      ⟨"developer", "standard", some ⟨none, none, none⟩, none, none⟩
      "professional").1.developer_profile =
      some ⟨some (some 200), some true, some "T"⟩ :=
  ⟨(update_subscription_spec "T"
      ⟨"developer", "standard", some ⟨none, none, none⟩, none, none⟩ "gold").1
      (by decide),
   by
    have h := ((update_subscription_spec "T"
      ⟨"developer", "standard", some ⟨none, none, none⟩, none, none⟩
      "professional").2 (by decide)).2.2.1 ⟨none, none, none⟩ rfl rfl
    rw [h]
    decide⟩

/-- C6: on every outcome branch of `LogoutView.post` — expired or missing
token, token-user mismatch, invalid token, unexpected exception, and
successful blacklist — the response is HTTP 200 and deletes all four
authentication cookies (auth_state, access_token, refresh_token, csrftoken). -/
theorem logout_always_clears_cookies (req : LogoutRequest) (tok : TokenOutcome)
    (unexpected : Bool) :
    (LogoutView.post req tok unexpected).http_status = 200 ∧
    (LogoutView.post req tok unexpected).deleted_cookies =
      ["auth_state", "access_token", "refresh_token", "csrftoken"] := by
  have h : ∃ c, LogoutView.post req tok unexpected =
      LogoutView.create_logout_response c := by
    unfold LogoutView.post
    repeat' first
    | exact ⟨_, rfl⟩
    | split
  obtain ⟨c, hc⟩ := h
  rw [hc]
  exact ⟨rfl, rfl⟩

/-- C7 counterexample: a login request by an existing user whose `is_active`
flag is false and whose `role_status` is `suspended` gets HTTP 403 with code
`account_inactive` (the `is_active` check pre-empts the `role_status` check),
not `account_suspended` as the claim requires. -/
theorem login_inactive_preempts_role_status :
    CustomTokenObtainPairView.post [⟨"a@x.com", "pw", false, "suspended"⟩]
      "a@x.com" "pw" =
      ⟨403, "Account is inactive. Please contact support.", "account_inactive"⟩ ∧
    "account_inactive" ≠ "account_" ++ "suspended" := by
  constructor
  · rfl
  · decide

/-- C7, corrected: provided the request carries a non-empty email and password
and the named user has `is_active` true, a `role_status` of suspended,
inactive or blocked yields HTTP 403 with a message and the code
`account_<status>` before any credential validation; a request whose email
matches no user instead falls through to credential validation and fails with
HTTP 401 `invalid_credentials`. -/
theorem login_restricted_status_spec :
    (∀ (db : List LoginUser) (email password : String) (u : LoginUser),
      email ≠ "" → password ≠ "" → findUser db email = some u →
      u.is_active = true →
      u.role_status ∈ ["suspended", "inactive", "blocked"] →
      CustomTokenObtainPairView.post db email password =
        ⟨403, CustomTokenObtainPairView.status_message u.role_status,
          "account_" ++ u.role_status⟩) ∧
    (∀ (db : List LoginUser) (email password : String),
      email ≠ "" → password ≠ "" → findUser db email = none →
      CustomTokenObtainPairView.post db email password =
        ⟨401, "Invalid email or password.", "invalid_credentials"⟩) := by
  constructor
  · intro db email password u he hp hf ha hs
    have hne : ¬ (email = "" ∨ password = "") := by simp [he, hp]
    simp only [CustomTokenObtainPairView.post, if_neg hne, hf, ha,
      Bool.not_true, if_pos hs]
    simp
  · intro db email password he hp hf
    have hne : ¬ (email = "" ∨ password = "") := by simp [he, hp]
    simp only [CustomTokenObtainPairView.post, if_neg hne, hf,
      CustomTokenObtainPairView.credential_stage]

/-- Witness for `login_restricted_status_spec`: a blocked user and an unknown
email. -/
theorem login_restricted_status_spec_witness :
    CustomTokenObtainPairView.post [⟨"b@x.com", "pw", true, "blocked"⟩]
      "b@x.com" "pw" =
      ⟨403, CustomTokenObtainPairView.status_message "blocked",
        "account_" ++ "blocked"⟩ ∧
    CustomTokenObtainPairView.post [⟨"b@x.com", "pw", true, "blocked"⟩]
      "nobody@x.com" "pw" =
      ⟨401, "Invalid email or password.", "invalid_credentials"⟩ :=
  ⟨login_restricted_status_spec.1 [⟨"b@x.com", "pw", true, "blocked"⟩]
      "b@x.com" "pw" ⟨"b@x.com", "pw", true, "blocked"⟩
      (by decide) (by decide) rfl rfl (by simp),
   login_restricted_status_spec.2 [⟨"b@x.com", "pw", true, "blocked"⟩]
      "nobody@x.com" "pw" (by decide) (by decide) rfl⟩
